import Mathlib

/-!
Shallow embedding of `src/aleph_request.py`: a MARC21 field-extraction module
with a read-through file cache.  The external collaborators (PyZ3950 `zoom`
client, `pymarc` MARCReader) are modelled by their interfaces: a decoded record
is a list of tagged fields, each field a list of (subfield-code, value) pairs;
the remote catalog client is a function producing bytes or an exception.
-/

namespace AlephRequest

/-- A decoded MARC field occurrence: a tag such as "100" plus an ordered list
of (one-character subfield code, value) pairs.  Models a `pymarc` Field. -/
structure MarcField where
  tag : String
  subfields : List (String × String)
deriving DecidableEq

/-- Model of `field[code]` in pymarc: the value of the first subfield with the
given code, or `None` when the code is absent. -/
def MarcField.getSub (f : MarcField) (code : String) : Option String :=
  (f.subfields.find? (fun p => p.1 == code)).map Prod.snd

/-- Model of `code in field` in pymarc: whether any subfield has the code. -/
def MarcField.hasSub (f : MarcField) (code : String) : Bool :=
  f.subfields.any (fun p => p.1 == code)

/-- A decoded MARC record: the ordered list of its fields.  Models the record
object returned by `MARCReader`. -/
structure Record where
  fields : List MarcField
deriving DecidableEq

/-- Model of `records.get_fields(tag)`: all occurrences of a tag, in record
order. -/
def Record.get_fields (r : Record) (tag : String) : List MarcField :=
  r.fields.filter (fun f => f.tag == tag)

/-- The person structure produced by `__check_for_gnd`: a Python dict with the
fixed keys GND, name, date, role. -/
structure Person where
  GND : String
  name : Option String
  date : String
  role : String
deriving DecidableEq

/-- Model of the Python expression `s.replace(",", "")`: since the search
string is the single character comma and the replacement is empty, it removes
every comma from the string. -/
def replaceCommas (s : String) : String :=
  String.mk (s.data.filter (fun c => c != ','))

/-- Embedding of `__check_for_gnd(marcField, GNDIndex)`. -/
def check_for_gnd (marcField : MarcField) (GNDIndex : String) : Person :=
  let date :=
    match marcField.getSub "d" with
    | some d => d
    | none => ""
  let GND :=
    match marcField.getSub GNDIndex with
    | none => "no_GND"
    | some g => replaceCommas g
  let role :=
    match marcField.getSub "4" with
    | some r4 => r4
    | none => ""
  { GND := GND, name := marcField.getSub "a", date := date, role := role }

/-- Embedding of `get_author(records)`: every tag-100 occurrence is appended,
then every tag-700 occurrence whose extracted role equals "aut". -/
def get_author (records : Record) : List Person :=
  let author : List Person := []
  let author := (records.get_fields "100").foldl
    (fun author field => author ++ [check_for_gnd field "0"]) author
  let author := (records.get_fields "700").foldl
    (fun author field =>
      let person := check_for_gnd field "0"
      if person.role == "aut" then author ++ [person] else author) author
  author

/-- Embedding of `get_recipient(records)`: tag-700 occurrences whose extracted
role equals "rcp". -/
def get_recipient (records : Record) : List Person :=
  let recipient : List Person := []
  let recipient := (records.get_fields "700").foldl
    (fun recipient field =>
      let person := check_for_gnd field "0"
      if person.role == "rcp" then recipient ++ [person] else recipient) recipient
  recipient

/-- Embedding of `get_mentioned_persons(records)`: every tag-600 occurrence. -/
def get_mentioned_persons (records : Record) : List Person :=
  let mentioned : List Person := []
  let mentioned := (records.get_fields "600").foldl
    (fun mentioned field => mentioned ++ [check_for_gnd field "0"]) mentioned
  mentioned

/-- Embedding of `get_date(records)`: each tag-046 occurrence overwrites the
accumulator with its subfield c value, with no presence check. -/
def get_date (records : Record) : Option String :=
  (records.get_fields "046").foldl (fun _date field => field.getSub "c") none

/-- Embedding of `get_creation_form(records)`: guarded last-wins scan of tag
250 subfield a. -/
def get_creation_form (records : Record) : Option String :=
  (records.get_fields "250").foldl
    (fun creation_information field =>
      if field.hasSub "a" then field.getSub "a" else creation_information) none

/-- Embedding of `get_footnote(records)`: guarded last-wins scan of tag 500
subfield a. -/
def get_footnote (records : Record) : Option String :=
  (records.get_fields "500").foldl
    (fun footnote field =>
      if field.hasSub "a" then field.getSub "a" else footnote) none

/-- Embedding of `get_content_info(records)`: guarded last-wins scan of tag 520
subfield a. -/
def get_content_info (records : Record) : Option String :=
  (records.get_fields "520").foldl
    (fun content_info field =>
      if field.hasSub "a" then field.getSub "a" else content_info) none

/-- Embedding of `get_accompanying_material(records)`: guarded last-wins scan
of tag 525 subfield a. -/
def get_accompanying_material (records : Record) : Option String :=
  (records.get_fields "525").foldl
    (fun accompanying_material field =>
      if field.hasSub "a" then field.getSub "a" else accompanying_material) none

/-- Embedding of `get_language(records)`: guarded last-wins scan of tag 546
subfield a. -/
def get_language (records : Record) : Option String :=
  (records.get_fields "546").foldl
    (fun language field =>
      if field.hasSub "a" then field.getSub "a" else language) none

/-- Embedding of `get_bernoulli_work_reference(records)`: guarded last-wins
scan of tag 596 subfield a. -/
def get_bernoulli_work_reference (records : Record) : Option String :=
  (records.get_fields "596").foldl
    (fun bernoulli_work_reference field =>
      if field.hasSub "a" then field.getSub "a" else bernoulli_work_reference) none

/-- Embedding of `get_emanuscript_link(records)`: guarded last-wins scan of tag
856 subfield u. -/
def get_emanuscript_link (records : Record) : Option String :=
  (records.get_fields "856").foldl
    (fun emanuscript_link field =>
      if field.hasSub "u" then field.getSub "u" else emanuscript_link) none

/-- The dict accumulated by `get_description`: fixed keys title and author,
each possibly absent. -/
structure Description where
  title : Option String
  author : Option String
deriving DecidableEq

/-- Embedding of `get_description(records)`: for each tag-245 occurrence, a
present subfield a rebinds the dict to a fresh one holding only title, and a
present subfield c sets the author key, creating the dict when it is None. -/
def get_description (records : Record) : Option Description :=
  (records.get_fields "245").foldl
    (fun description field =>
      let description :=
        if field.hasSub "a" then
          some { title := field.getSub "a", author := none }
        else description
      if field.hasSub "c" then
        match description with
        | some d => some { d with author := field.getSub "c" }
        | none => some { title := none, author := field.getSub "c" }
      else description) none

/-- The dict accumulated by `get_physical_description`: fixed keys amount and
format. -/
structure PhysicalDescription where
  amount : Option String
  format : Option String
deriving DecidableEq

/-- Embedding of `get_physical_description(records)`: for each tag-300
occurrence, a present subfield a rebinds the dict to a fresh one holding only
amount, and a present subfield c sets the format key, creating the dict when
it is None. -/
def get_physical_description (records : Record) : Option PhysicalDescription :=
  (records.get_fields "300").foldl
    (fun physical_description field =>
      let physical_description :=
        if field.hasSub "a" then
          some { amount := field.getSub "a", format := none }
        else physical_description
      if field.hasSub "c" then
        match physical_description with
        | some pd => some { pd with format := field.getSub "c" }
        | none => some { amount := none, format := field.getSub "c" }
      else physical_description) none

/-- The dict accumulated by `get_creation_place`: fixed keys place and gnd. -/
structure CreationPlace where
  place : Option String
  gnd : Option String
deriving DecidableEq

/-- Embedding of `get_creation_place(records)` over tag 751, subfields a and
0. -/
def get_creation_place (records : Record) : Option CreationPlace :=
  (records.get_fields "751").foldl
    (fun creation_place field =>
      let creation_place :=
        if field.hasSub "a" then
          some { place := field.getSub "a", gnd := none }
        else creation_place
      if field.hasSub "0" then
        match creation_place with
        | some cp => some { cp with gnd := field.getSub "0" }
        | none => some { place := none, gnd := field.getSub "0" }
      else creation_place) none

/-- The dict accumulated by `get_bibliographical_info`: fixed keys reference
and type. -/
structure BibliographicalInfo where
  reference : Option String
  type : Option String
deriving DecidableEq

/-- Embedding of `get_bibliographical_info(records)` over tag 510, subfields a
and i. -/
def get_bibliographical_info (records : Record) : Option BibliographicalInfo :=
  (records.get_fields "510").foldl
    (fun bibliographical_info field =>
      let bibliographical_info :=
        if field.hasSub "a" then
          some { reference := field.getSub "a", type := none }
        else bibliographical_info
      if field.hasSub "i" then
        match bibliographical_info with
        | some bi => some { bi with type := field.getSub "i" }
        | none => some { reference := none, type := field.getSub "i" }
      else bibliographical_info) none

/-- The dict accumulated by `get_reproduction_info`: fixed keys type, place,
institution, year and additional. -/
structure ReproductionInfo where
  type : Option String
  place : Option String
  institution : Option String
  year : Option String
  additional : Option String
deriving DecidableEq

/-- Embedding of `get_reproduction_info(records)` over tag 533: a present
subfield a rebinds the dict to a fresh one holding only type, and each of the
present subfields b, c, d, n sets its own key (place, institution, year,
additional), creating the dict when it is None. -/
def get_reproduction_info (records : Record) : Option ReproductionInfo :=
  (records.get_fields "533").foldl
    (fun reproduction_info field =>
      let reproduction_info :=
        if field.hasSub "a" then
          some { type := field.getSub "a", place := none, institution := none,
                 year := none, additional := none }
        else reproduction_info
      let reproduction_info :=
        if field.hasSub "b" then
          match reproduction_info with
          | some ri => some { ri with place := field.getSub "b" }
          | none => some { type := none, place := field.getSub "b",
                           institution := none, year := none, additional := none }
        else reproduction_info
      let reproduction_info :=
        if field.hasSub "c" then
          match reproduction_info with
          | some ri => some { ri with institution := field.getSub "c" }
          | none => some { type := none, place := none,
                           institution := field.getSub "c", year := none,
                           additional := none }
        else reproduction_info
      let reproduction_info :=
        if field.hasSub "d" then
          match reproduction_info with
          | some ri => some { ri with year := field.getSub "d" }
          | none => some { type := none, place := none, institution := none,
                           year := field.getSub "d", additional := none }
        else reproduction_info
      if field.hasSub "n" then
        match reproduction_info with
        | some ri => some { ri with additional := field.getSub "n" }
        | none => some { type := none, place := none, institution := none,
                         year := none, additional := field.getSub "n" }
      else reproduction_info) none

/-! Cache and fetch model.  The filesystem is a map from paths to byte lists
plus a set of created directories; the remote catalog client is a function
from an identifier to bytes or a raised exception; an optional injected
I-O fault models an exception raised by directory creation, file read or
file write inside the try block. -/

/-- The fixed cache-root directory, `cache_path = marc_cache` in the source. -/
def cache_path : String := "marc_cache"

/-- An in-memory filesystem: files as path-to-bytes pairs, directories as a
list of paths.  Bytes are modelled as lists of naturals. -/
structure FileSystem where
  files : List (String × List Nat)
  dirs : List String
deriving DecidableEq

/-- Model of `os.path.isfile`. -/
def FileSystem.isFile (fs : FileSystem) (p : String) : Bool :=
  fs.files.any (fun q => q.1 == p)

/-- Model of opening a file and reading its full contents. -/
def FileSystem.read (fs : FileSystem) (p : String) : List Nat :=
  ((fs.files.find? (fun q => q.1 == p)).map Prod.snd).getD []

/-- Model of opening a file for writing and writing the full contents. -/
def FileSystem.write (fs : FileSystem) (p : String) (b : List Nat) : FileSystem :=
  { fs with files := (p, b) :: fs.files.filter (fun q => q.1 != p) }

/-- Model of `os.path.exists`. -/
def FileSystem.pathExists (fs : FileSystem) (p : String) : Bool :=
  fs.files.any (fun q => q.1 == p) || fs.dirs.contains p

/-- Model of `os.makedirs`. -/
def FileSystem.makedirs (fs : FileSystem) (p : String) : FileSystem :=
  { fs with dirs := p :: fs.dirs }

/-- The cache file path built in `get_marc21`: `cache_path + / + sys_id +
.marc`. -/
def file_path (sys_id : String) : String :=
  cache_path ++ "/" ++ sys_id ++ ".marc"

/-- Outcome of the try block of `get_marc21`: the returned bytes, the
filesystem afterwards, and whether the remote catalog was queried. -/
structure FetchResult where
  marc21 : List Nat
  fs : FileSystem
  remoteCalled : Bool
deriving DecidableEq

/-- Embedding of the try block of `get_marc21`: ensure the cache directory
exists, then read the cache file if present, otherwise query the remote
catalog and write the cache file before returning.  `io_fault` injects an
exception from a filesystem operation; `remote` models `conn.search` plus
`res[0].data`, returning bytes or raising. -/
def get_marc21_try (io_fault : Option String)
    (remote : String → Except String (List Nat))
    (fs : FileSystem) (sys_id : String) : Except String FetchResult :=
  match io_fault with
  | some e => Except.error e
  | none =>
    let fp := file_path sys_id
    let fs := if !(fs.pathExists cache_path) then fs.makedirs cache_path else fs
    let file_exists := fs.isFile fp
    if file_exists then
      Except.ok ⟨fs.read fp, fs, false⟩
    else
      match remote sys_id with
      | Except.error e => Except.error e
      | Except.ok marc21 => Except.ok ⟨marc21, fs.write fp marc21, true⟩

/-- A halted execution: the message written to stderr and the exit status. -/
structure Halt where
  stderrMsg : String
  exitCode : Nat
deriving DecidableEq

/-- Embedding of `get_marc21`: the try block with its catch-all handler, which
writes a message naming the identifier to stderr and exits with status 1. -/
def get_marc21 (io_fault : Option String)
    (remote : String → Except String (List Nat))
    (fs : FileSystem) (sys_id : String) : Except Halt FetchResult :=
  match get_marc21_try io_fault remote fs sys_id with
  | Except.ok r => Except.ok r
  | Except.error e =>
      Except.error
        ⟨"Getting Marc21 failed: " ++ e ++ " for sysid: " ++ sys_id ++ "\n", 1⟩

/-- Embedding of `get_records`: `decoded` models the outcome of
`next(MARCReader(marc21, force_utf8=True, to_unicode=True))`; any exception is
reported to stderr and execution halts with status 2. -/
def get_records (decoded : Except String Record) : Except Halt Record :=
  match decoded with
  | Except.ok r => Except.ok r
  | Except.error e => Except.error ⟨"Error reading Marc21 data." ++ e, 2⟩

/-! Concrete records used to instantiate the theorems on explicit inputs. -/

/-- Tag 500 occurring twice with subfield a values X then Y. -/
def footnoteXY : Record :=
  ⟨[⟨"500", [("a", "X")]⟩, ⟨"500", [("a", "Y")]⟩]⟩

/-- One occurrence of each scalar-extractor tag, each with its relevant
subfield present. -/
def scalarAll : Record :=
  ⟨[⟨"046", [("c", "1700")]⟩, ⟨"250", [("a", "v250")]⟩, ⟨"500", [("a", "v500")]⟩,
    ⟨"520", [("a", "v520")]⟩, ⟨"525", [("a", "v525")]⟩, ⟨"546", [("a", "v546")]⟩,
    ⟨"596", [("a", "v596")]⟩, ⟨"856", [("u", "v856")]⟩]⟩

/-- Tag 046 twice: first occurrence has subfield c, second lacks it. -/
def dateCex : Record :=
  ⟨[⟨"046", [("c", "1700")]⟩, ⟨"046", [("a", "n")]⟩]⟩

/-- Tag 300 twice: first occurrence has only subfield c, second only
subfield a. -/
def pdCex : Record :=
  ⟨[⟨"300", [("c", "cm")]⟩, ⟨"300", [("a", "10 p.")]⟩]⟩

/-- Tag 300 twice: first occurrence has only subfield a = 10 p., second only
subfield c = cm (the merge example of the specification). -/
def pdMerge : Record :=
  ⟨[⟨"300", [("a", "10 p.")]⟩, ⟨"300", [("c", "cm")]⟩]⟩

/-- A single tag-700 occurrence whose role subfield is edt. -/
def edtRec : Record :=
  ⟨[⟨"700", [("a", "E"), ("4", "edt")]⟩]⟩

/-- A tag-700 field with role aut. -/
def autField : MarcField :=
  ⟨"700", [("a", "A"), ("4", "aut")]⟩

/-- A record with no tag-100 field and one aut tag-700 field. -/
def autRec : Record := ⟨[autField]⟩

/-- A personal-name field with no authority subfield 0. -/
def noGndField : MarcField := ⟨"100", [("a", "N")]⟩

/-- A personal-name field whose authority subfield 0 is 12345 followed by a
comma. -/
def gndField : MarcField := ⟨"100", [("0", "12345,")]⟩

/-- A filesystem whose cache already holds bytes for identifier 000123. -/
def fsHit : FileSystem :=
  ⟨[("marc_cache/000123.marc", [1, 2, 3])], ["marc_cache"]⟩

/-- An empty filesystem. -/
def fsEmpty : FileSystem := ⟨[], []⟩

/-- A remote catalog client that always raises. -/
def remoteDown : String → Except String (List Nat) :=
  fun _ => Except.error "connection refused"

/-- A remote catalog client that always returns the bytes 7, 8. -/
def remoteOk : String → Except String (List Nat) :=
  fun _ => Except.ok [7, 8]

/-- The halt produced by an injected disk-full fault for identifier 000123. -/
def haltDisk : Halt :=
  ⟨"Getting Marc21 failed: disk full for sysid: 000123\n", 1⟩

/-- The halt produced by a failed decode with message bad record. -/
def haltDecode : Halt := ⟨"Error reading Marc21 data.bad record", 2⟩

/-! Helper lemmas about the fold patterns of the extractors. -/

lemma foldl_append_map (l : List MarcField) (acc : List Person) :
    l.foldl (fun a f => a ++ [check_for_gnd f "0"]) acc
      = acc ++ l.map (fun f => check_for_gnd f "0") := by
  induction l generalizing acc with
  | nil => simp
  | cons f l ih => simp [ih]

lemma foldl_role_filter (role : String) (l : List MarcField) (acc : List Person) :
    l.foldl (fun a f =>
        let person := check_for_gnd f "0"
        if person.role == role then a ++ [person] else a) acc
      = acc ++ (l.map (fun f => check_for_gnd f "0")).filter
          (fun p => p.role == role) := by
  induction l generalizing acc with
  | nil => simp
  | cons f l ih =>
    rw [List.foldl_cons, ih, List.map_cons, List.filter_cons]
    cases h : (check_for_gnd f "0").role == role with
    | true => simp [h, List.append_assoc]
    | false => simp [h]

lemma get_author_eq (r : Record) :
    get_author r = (r.get_fields "100").map (fun f => check_for_gnd f "0")
      ++ ((r.get_fields "700").map (fun f => check_for_gnd f "0")).filter
          (fun p => p.role == "aut") := by
  simp only [get_author]
  rw [foldl_role_filter, foldl_append_map]
  simp

lemma get_recipient_eq (r : Record) :
    get_recipient r = ((r.get_fields "700").map (fun f => check_for_gnd f "0")).filter
        (fun p => p.role == "rcp") := by
  simp only [get_recipient]
  rw [foldl_role_filter]
  simp

lemma scalar_foldl (code : String) (fs : List MarcField) (init : Option String) :
    fs.foldl (fun acc f => if f.hasSub code then f.getSub code else acc) init
      = match fs.reverse.find? (fun f => f.hasSub code) with
        | some g => g.getSub code
        | none => init := by
  induction fs generalizing init with
  | nil => rfl
  | cons f fs ih =>
    rw [List.foldl_cons, ih, List.reverse_cons, List.find?_append]
    cases h : fs.reverse.find? (fun f => f.hasSub code) with
    | some g => simp [Option.or]
    | none =>
      cases hf : f.hasSub code <;> simp [Option.or, List.find?_cons, hf]

lemma foldl_getSub_last (code : String) (fs : List MarcField) (init : Option String) :
    fs.foldl (fun _o f => f.getSub code) init
      = match fs.getLast? with
        | some g => g.getSub code
        | none => init := by
  induction fs generalizing init with
  | nil => rfl
  | cons f fs ih =>
    rw [List.foldl_cons, ih]
    cases fs with
    | nil => rfl
    | cons g gs =>
      rw [List.getLast?_cons_cons]
      cases hL : (g :: gs).getLast? with
      | some x => rfl
      | none => simp at hL

lemma reverse_find?_of_all (code : String) (fs : List MarcField) (g : MarcField)
    (hg : fs.getLast? = some g) (hall : ∀ f ∈ fs, f.hasSub code = true) :
    fs.reverse.find? (fun f => f.hasSub code) = some g := by
  have h1 : fs.reverse.head? = some g := by rw [List.head?_reverse]; exact hg
  cases hrev : fs.reverse with
  | nil => rw [hrev] at h1; simp at h1
  | cons a t =>
    rw [hrev] at h1
    simp only [List.head?_cons, Option.some.injEq] at h1
    subst h1
    have ha : a ∈ fs := by
      have hm : a ∈ fs.reverse := by rw [hrev]; exact List.mem_cons_self a t
      exact List.mem_reverse.mp hm
    simp [List.find?_cons, hall a ha]

lemma scalar_foldl_last (code : String) (fs : List MarcField) (g : MarcField)
    (hg : fs.getLast? = some g) (hall : ∀ f ∈ fs, f.hasSub code = true)
    (init : Option String) :
    fs.foldl (fun acc f => if f.hasSub code then f.getSub code else acc) init
      = g.getSub code := by
  rw [scalar_foldl, reverse_find?_of_all code fs g hg hall]

lemma getSub_isSome_of_hasSub (f : MarcField) (code : String)
    (h : f.hasSub code = true) : (f.getSub code).isSome = true := by
  simp only [MarcField.hasSub, List.any_eq_true] at h
  obtain ⟨x, hx, hpx⟩ := h
  have hs : (f.subfields.find? (fun p => p.1 == code)).isSome :=
    List.find?_isSome.mpr ⟨x, hx, hpx⟩
  simpa [MarcField.getSub] using hs

lemma read_write (fs : FileSystem) (p : String) (b : List Nat) :
    (fs.write p b).read p = b := by
  simp [FileSystem.write, FileSystem.read, List.find?_cons]

lemma isFile_write (fs : FileSystem) (p : String) (b : List Nat) :
    (fs.write p b).isFile p = true := by
  simp [FileSystem.write, FileSystem.isFile]

lemma makedirs_files (fs : FileSystem) (p : String) :
    (fs.makedirs p).files = fs.files := rfl

lemma isFile_files_eq (fs1 fs2 : FileSystem) (p : String)
    (h : fs1.files = fs2.files) : fs1.isFile p = fs2.isFile p := by
  simp [FileSystem.isFile, h]

lemma read_files_eq (fs1 fs2 : FileSystem) (p : String)
    (h : fs1.files = fs2.files) : fs1.read p = fs2.read p := by
  simp [FileSystem.read, h]

lemma isFile_makedirs (fs : FileSystem) (p q : String) :
    (fs.makedirs p).isFile q = fs.isFile q := rfl

lemma read_makedirs (fs : FileSystem) (p q : String) :
    (fs.makedirs p).read q = fs.read q := rfl

lemma get_marc21_hit (remote : String → Except String (List Nat))
    (fs : FileSystem) (sys_id : String)
    (h : fs.isFile (file_path sys_id) = true) :
    ∃ fs2, get_marc21 none remote fs sys_id
        = Except.ok ⟨fs.read (file_path sys_id), fs2, false⟩
      ∧ fs2.files = fs.files := by
  by_cases hp : fs.pathExists cache_path
  · refine ⟨fs, ?_, rfl⟩
    unfold get_marc21 get_marc21_try
    simp [hp, h]
  · refine ⟨fs.makedirs cache_path, ?_, rfl⟩
    have h2 : (fs.makedirs cache_path).isFile (file_path sys_id) = true := h
    unfold get_marc21 get_marc21_try
    simp [hp, h2, read_makedirs]

/-! Claim theorems. -/

/-- C1: for every scalar extractor, when the tag occurs and every occurrence
of the tag contains the relevant subfield, the extracted value is the relevant
subfield of the last occurrence; in particular tag 500 occurring twice with
subfield a values X then Y yields footnote Y. -/
theorem scalar_last_wins (r : Record) :
    (∀ g, (r.get_fields "046").getLast? = some g →
       (∀ f ∈ r.get_fields "046", f.hasSub "c" = true) → get_date r = g.getSub "c")
  ∧ (∀ g, (r.get_fields "250").getLast? = some g →
       (∀ f ∈ r.get_fields "250", f.hasSub "a" = true) →
       get_creation_form r = g.getSub "a")
  ∧ (∀ g, (r.get_fields "500").getLast? = some g →
       (∀ f ∈ r.get_fields "500", f.hasSub "a" = true) →
       get_footnote r = g.getSub "a")
  ∧ (∀ g, (r.get_fields "520").getLast? = some g →
       (∀ f ∈ r.get_fields "520", f.hasSub "a" = true) →
       get_content_info r = g.getSub "a")
  ∧ (∀ g, (r.get_fields "525").getLast? = some g →
       (∀ f ∈ r.get_fields "525", f.hasSub "a" = true) →
       get_accompanying_material r = g.getSub "a")
  ∧ (∀ g, (r.get_fields "546").getLast? = some g →
       (∀ f ∈ r.get_fields "546", f.hasSub "a" = true) →
       get_language r = g.getSub "a")
  ∧ (∀ g, (r.get_fields "596").getLast? = some g →
       (∀ f ∈ r.get_fields "596", f.hasSub "a" = true) →
       get_bernoulli_work_reference r = g.getSub "a")
  ∧ (∀ g, (r.get_fields "856").getLast? = some g →
       (∀ f ∈ r.get_fields "856", f.hasSub "u" = true) →
       get_emanuscript_link r = g.getSub "u")
  ∧ get_footnote footnoteXY = some "Y" := by
  refine ⟨?_, ?_, ?_, ?_, ?_, ?_, ?_, ?_, by decide⟩
  · intro g hg _hall
    unfold get_date
    rw [foldl_getSub_last, hg]
  · intro g hg hall
    unfold get_creation_form
    exact scalar_foldl_last "a" _ g hg hall none
  · intro g hg hall
    unfold get_footnote
    exact scalar_foldl_last "a" _ g hg hall none
  · intro g hg hall
    unfold get_content_info
    exact scalar_foldl_last "a" _ g hg hall none
  · intro g hg hall
    unfold get_accompanying_material
    exact scalar_foldl_last "a" _ g hg hall none
  · intro g hg hall
    unfold get_language
    exact scalar_foldl_last "a" _ g hg hall none
  · intro g hg hall
    unfold get_bernoulli_work_reference
    exact scalar_foldl_last "a" _ g hg hall none
  · intro g hg hall
    unfold get_emanuscript_link
    exact scalar_foldl_last "u" _ g hg hall none

/-- Witness for scalar_last_wins: a record with one occurrence of each scalar
tag, each carrying its relevant subfield. -/
theorem scalar_last_wins_witness :
    get_date scalarAll = some "1700"
  ∧ get_creation_form scalarAll = some "v250"
  ∧ get_footnote scalarAll = some "v500"
  ∧ get_content_info scalarAll = some "v520"
  ∧ get_accompanying_material scalarAll = some "v525"
  ∧ get_language scalarAll = some "v546"
  ∧ get_bernoulli_work_reference scalarAll = some "v596"
  ∧ get_emanuscript_link scalarAll = some "v856" := by
  have h := scalar_last_wins scalarAll
  refine ⟨?_, ?_, ?_, ?_, ?_, ?_, ?_, ?_⟩
  · exact (h.1 ⟨"046", [("c", "1700")]⟩ (by decide) (by decide)).trans (by decide)
  · exact (h.2.1 ⟨"250", [("a", "v250")]⟩ (by decide) (by decide)).trans (by decide)
  · exact (h.2.2.1 ⟨"500", [("a", "v500")]⟩ (by decide) (by decide)).trans (by decide)
  · exact (h.2.2.2.1 ⟨"520", [("a", "v520")]⟩ (by decide) (by decide)).trans (by decide)
  · exact (h.2.2.2.2.1 ⟨"525", [("a", "v525")]⟩ (by decide) (by decide)).trans (by decide)
  · exact (h.2.2.2.2.2.1 ⟨"546", [("a", "v546")]⟩ (by decide) (by decide)).trans (by decide)
  · exact
      (h.2.2.2.2.2.2.1 ⟨"596", [("a", "v596")]⟩ (by decide) (by decide)).trans (by decide)
  · exact
      (h.2.2.2.2.2.2.2.1 ⟨"856", [("u", "v856")]⟩ (by decide) (by decide)).trans (by decide)

/-- C3 counterexample: tag 046 occurs with subfield c = 1700 in its first
occurrence, while a second occurrence lacks subfield c; the extracted date is
null although an occurrence of the tag contains the relevant subfield,
contradicting the claimed null-iff-never-present law. -/
theorem date_absent_resets_cex :
    get_date dateCex = none
  ∧ (dateCex.get_fields "046").any (fun f => f.hasSub "c") = true := by decide

/-- C3 (amended): for the seven guarded scalar extractors an occurrence
lacking the relevant subfield leaves the result unchanged, so the result is
the relevant subfield of the last occurrence containing it and null exactly
when no occurrence contains it; the date extractor instead overwrites the
result with subfield c of every 046 occurrence, so its result is subfield c of
the last occurrence, null when that occurrence lacks c. -/
theorem scalar_absent_behavior (r : Record) :
    (get_creation_form r
      = match (r.get_fields "250").reverse.find? (fun f => f.hasSub "a") with
        | some g => g.getSub "a"
        | none => none)
  ∧ (get_footnote r
      = match (r.get_fields "500").reverse.find? (fun f => f.hasSub "a") with
        | some g => g.getSub "a"
        | none => none)
  ∧ (get_content_info r
      = match (r.get_fields "520").reverse.find? (fun f => f.hasSub "a") with
        | some g => g.getSub "a"
        | none => none)
  ∧ (get_accompanying_material r
      = match (r.get_fields "525").reverse.find? (fun f => f.hasSub "a") with
        | some g => g.getSub "a"
        | none => none)
  ∧ (get_language r
      = match (r.get_fields "546").reverse.find? (fun f => f.hasSub "a") with
        | some g => g.getSub "a"
        | none => none)
  ∧ (get_bernoulli_work_reference r
      = match (r.get_fields "596").reverse.find? (fun f => f.hasSub "a") with
        | some g => g.getSub "a"
        | none => none)
  ∧ (get_emanuscript_link r
      = match (r.get_fields "856").reverse.find? (fun f => f.hasSub "u") with
        | some g => g.getSub "u"
        | none => none)
  ∧ (get_date r
      = match (r.get_fields "046").getLast? with
        | some g => g.getSub "c"
        | none => none)
  ∧ (∀ f : MarcField, ∀ code : String,
      f.hasSub code = true → (f.getSub code).isSome = true) := by
  refine ⟨?_, ?_, ?_, ?_, ?_, ?_, ?_, ?_, getSub_isSome_of_hasSub⟩
  · unfold get_creation_form
    exact scalar_foldl "a" _ none
  · unfold get_footnote
    exact scalar_foldl "a" _ none
  · unfold get_content_info
    exact scalar_foldl "a" _ none
  · unfold get_accompanying_material
    exact scalar_foldl "a" _ none
  · unfold get_language
    exact scalar_foldl "a" _ none
  · unfold get_bernoulli_work_reference
    exact scalar_foldl "a" _ none
  · unfold get_emanuscript_link
    exact scalar_foldl "u" _ none
  · unfold get_date
    exact foldl_getSub_last "c" _ none

/-- Witness for scalar_absent_behavior: the date reset record and a guarded
extractor instance. -/
theorem scalar_absent_behavior_witness :
    get_date dateCex = none
  ∧ get_creation_form scalarAll = some "v250"
  ∧ ((⟨"500", [("a", "x")]⟩ : MarcField).getSub "a").isSome = true := by
  refine ⟨?_, ?_, ?_⟩
  · exact (scalar_absent_behavior dateCex).2.2.2.2.2.2.2.1.trans (by decide)
  · exact (scalar_absent_behavior scalarAll).1.trans (by decide)
  · exact (scalar_absent_behavior scalarAll).2.2.2.2.2.2.2.2 ⟨"500", [("a", "x")]⟩ "a"
      (by decide)

/-- C2 counterexample: tag 300 with only subfield c = cm in the first
occurrence and only subfield a = 10 p. in the second; the format key set by
the first occurrence is removed by the second occurrence, so the result is not
the claimed accumulated mapping. -/
theorem composite_reset_cex :
    get_physical_description pdCex
      = some { amount := some "10 p.", format := none }
  ∧ get_physical_description pdCex
      ≠ some { amount := some "10 p.", format := some "cm" } := by decide

/-- C2 (amended), covering all five composite extractors (physical
description 300, description 245, creation place 751, bibliographical info
510, reproduction info 533): scanning tag occurrences in order, a present
primary subfield a replaces the accumulating mapping with a fresh one holding
only its own key, discarding keys set by earlier occurrences unless the same
occurrence sets them again; each present secondary subfield sets only its own
key, preserving the rest of the mapping or creating it.  The example with
subfield a = 10 p. in one occurrence and subfield c = cm in a later occurrence
still yields both keys. -/
theorem composite_merge (fs : List MarcField) (f : MarcField) :
    (f.tag = "300" →
      (f.hasSub "a" = true → f.hasSub "c" = true →
        get_physical_description ⟨fs ++ [f]⟩
          = some { amount := f.getSub "a", format := f.getSub "c" })
      ∧ (f.hasSub "a" = true → f.hasSub "c" = false →
        get_physical_description ⟨fs ++ [f]⟩
          = some { amount := f.getSub "a", format := none })
      ∧ (f.hasSub "a" = false → f.hasSub "c" = true →
        get_physical_description ⟨fs ++ [f]⟩
          = some { amount := (get_physical_description ⟨fs⟩).bind (fun pd => pd.amount),
                   format := f.getSub "c" })
      ∧ (f.hasSub "a" = false → f.hasSub "c" = false →
        get_physical_description ⟨fs ++ [f]⟩ = get_physical_description ⟨fs⟩))
  ∧ (f.tag = "245" →
      (f.hasSub "a" = true → f.hasSub "c" = true →
        get_description ⟨fs ++ [f]⟩
          = some { title := f.getSub "a", author := f.getSub "c" })
      ∧ (f.hasSub "a" = true → f.hasSub "c" = false →
        get_description ⟨fs ++ [f]⟩
          = some { title := f.getSub "a", author := none })
      ∧ (f.hasSub "a" = false → f.hasSub "c" = true →
        get_description ⟨fs ++ [f]⟩
          = some { title := (get_description ⟨fs⟩).bind (fun d => d.title),
                   author := f.getSub "c" })
      ∧ (f.hasSub "a" = false → f.hasSub "c" = false →
        get_description ⟨fs ++ [f]⟩ = get_description ⟨fs⟩))
  ∧ (f.tag = "751" →
      (f.hasSub "a" = true → f.hasSub "0" = true →
        get_creation_place ⟨fs ++ [f]⟩
          = some { place := f.getSub "a", gnd := f.getSub "0" })
      ∧ (f.hasSub "a" = true → f.hasSub "0" = false →
        get_creation_place ⟨fs ++ [f]⟩
          = some { place := f.getSub "a", gnd := none })
      ∧ (f.hasSub "a" = false → f.hasSub "0" = true →
        get_creation_place ⟨fs ++ [f]⟩
          = some { place := (get_creation_place ⟨fs⟩).bind (fun cp => cp.place),
                   gnd := f.getSub "0" })
      ∧ (f.hasSub "a" = false → f.hasSub "0" = false →
        get_creation_place ⟨fs ++ [f]⟩ = get_creation_place ⟨fs⟩))
  ∧ (f.tag = "510" →
      (f.hasSub "a" = true → f.hasSub "i" = true →
        get_bibliographical_info ⟨fs ++ [f]⟩
          = some { reference := f.getSub "a", type := f.getSub "i" })
      ∧ (f.hasSub "a" = true → f.hasSub "i" = false →
        get_bibliographical_info ⟨fs ++ [f]⟩
          = some { reference := f.getSub "a", type := none })
      ∧ (f.hasSub "a" = false → f.hasSub "i" = true →
        get_bibliographical_info ⟨fs ++ [f]⟩
          = some { reference := (get_bibliographical_info ⟨fs⟩).bind
                     (fun bi => bi.reference),
                   type := f.getSub "i" })
      ∧ (f.hasSub "a" = false → f.hasSub "i" = false →
        get_bibliographical_info ⟨fs ++ [f]⟩ = get_bibliographical_info ⟨fs⟩))
  ∧ (f.tag = "533" →
      get_reproduction_info ⟨fs ++ [f]⟩
        = (let base :=
             if f.hasSub "a" then
               some { type := f.getSub "a", place := none, institution := none,
                      year := none, additional := none }
             else get_reproduction_info ⟨fs⟩
           if f.hasSub "b" || f.hasSub "c" || f.hasSub "d" || f.hasSub "n" then
             some { type := base.bind (fun ri => ri.type),
                    place :=
                      if f.hasSub "b" then f.getSub "b"
                      else base.bind (fun ri => ri.place),
                    institution :=
                      if f.hasSub "c" then f.getSub "c"
                      else base.bind (fun ri => ri.institution),
                    year :=
                      if f.hasSub "d" then f.getSub "d"
                      else base.bind (fun ri => ri.year),
                    additional :=
                      if f.hasSub "n" then f.getSub "n"
                      else base.bind (fun ri => ri.additional) }
           else base))
  ∧ get_physical_description pdMerge
      = some { amount := some "10 p.", format := some "cm" } := by
  refine ⟨?_, ?_, ?_, ?_, ?_, by decide⟩
  · intro htag
    have hfields : Record.get_fields ⟨fs ++ [f]⟩ "300"
        = Record.get_fields ⟨fs⟩ "300" ++ [f] := by
      simp [Record.get_fields, List.filter_append, htag]
    have hstep : get_physical_description ⟨fs ++ [f]⟩
        = (let pd1 :=
             if f.hasSub "a" then some { amount := f.getSub "a", format := none }
             else get_physical_description ⟨fs⟩
           if f.hasSub "c" then
             match pd1 with
             | some pd => some { pd with format := f.getSub "c" }
             | none => some { amount := none, format := f.getSub "c" }
           else pd1) := by
      unfold get_physical_description
      rw [hfields, List.foldl_append]
      rfl
    refine ⟨?_, ?_, ?_, ?_⟩
    · intro ha hc
      rw [hstep]
      simp [ha, hc]
    · intro ha hc
      rw [hstep]
      simp [ha, hc]
    · intro ha hc
      rw [hstep]
      cases hprev : get_physical_description (⟨fs⟩ : Record) with
      | none => simp [ha, hc, hprev]
      | some pd => simp [ha, hc, hprev]
    · intro ha hc
      rw [hstep]
      simp [ha, hc]
  · intro htag
    have hfields : Record.get_fields ⟨fs ++ [f]⟩ "245"
        = Record.get_fields ⟨fs⟩ "245" ++ [f] := by
      simp [Record.get_fields, List.filter_append, htag]
    have hstep : get_description ⟨fs ++ [f]⟩
        = (let d1 :=
             if f.hasSub "a" then some { title := f.getSub "a", author := none }
             else get_description ⟨fs⟩
           if f.hasSub "c" then
             match d1 with
             | some d => some { d with author := f.getSub "c" }
             | none => some { title := none, author := f.getSub "c" }
           else d1) := by
      unfold get_description
      rw [hfields, List.foldl_append]
      rfl
    refine ⟨?_, ?_, ?_, ?_⟩
    · intro ha hc
      rw [hstep]
      simp [ha, hc]
    · intro ha hc
      rw [hstep]
      simp [ha, hc]
    · intro ha hc
      rw [hstep]
      cases hprev : get_description (⟨fs⟩ : Record) with
      | none => simp [ha, hc, hprev]
      | some d => simp [ha, hc, hprev]
    · intro ha hc
      rw [hstep]
      simp [ha, hc]
  · intro htag
    have hfields : Record.get_fields ⟨fs ++ [f]⟩ "751"
        = Record.get_fields ⟨fs⟩ "751" ++ [f] := by
      simp [Record.get_fields, List.filter_append, htag]
    have hstep : get_creation_place ⟨fs ++ [f]⟩
        = (let cp1 :=
             if f.hasSub "a" then some { place := f.getSub "a", gnd := none }
             else get_creation_place ⟨fs⟩
           if f.hasSub "0" then
             match cp1 with
             | some cp => some { cp with gnd := f.getSub "0" }
             | none => some { place := none, gnd := f.getSub "0" }
           else cp1) := by
      unfold get_creation_place
      rw [hfields, List.foldl_append]
      rfl
    refine ⟨?_, ?_, ?_, ?_⟩
    · intro ha h0
      rw [hstep]
      simp [ha, h0]
    · intro ha h0
      rw [hstep]
      simp [ha, h0]
    · intro ha h0
      rw [hstep]
      cases hprev : get_creation_place (⟨fs⟩ : Record) with
      | none => simp [ha, h0, hprev]
      | some cp => simp [ha, h0, hprev]
    · intro ha h0
      rw [hstep]
      simp [ha, h0]
  · intro htag
    have hfields : Record.get_fields ⟨fs ++ [f]⟩ "510"
        = Record.get_fields ⟨fs⟩ "510" ++ [f] := by
      simp [Record.get_fields, List.filter_append, htag]
    have hstep : get_bibliographical_info ⟨fs ++ [f]⟩
        = (let bi1 :=
             if f.hasSub "a" then some { reference := f.getSub "a", type := none }
             else get_bibliographical_info ⟨fs⟩
           if f.hasSub "i" then
             match bi1 with
             | some bi => some { bi with type := f.getSub "i" }
             | none => some { reference := none, type := f.getSub "i" }
           else bi1) := by
      unfold get_bibliographical_info
      rw [hfields, List.foldl_append]
      rfl
    refine ⟨?_, ?_, ?_, ?_⟩
    · intro ha hi
      rw [hstep]
      simp [ha, hi]
    · intro ha hi
      rw [hstep]
      simp [ha, hi]
    · intro ha hi
      rw [hstep]
      cases hprev : get_bibliographical_info (⟨fs⟩ : Record) with
      | none => simp [ha, hi, hprev]
      | some bi => simp [ha, hi, hprev]
    · intro ha hi
      rw [hstep]
      simp [ha, hi]
  · intro htag
    have hfields : Record.get_fields ⟨fs ++ [f]⟩ "533"
        = Record.get_fields ⟨fs⟩ "533" ++ [f] := by
      simp [Record.get_fields, List.filter_append, htag]
    have hstep : get_reproduction_info ⟨fs ++ [f]⟩
        = (let r1 :=
             if f.hasSub "a" then
               some { type := f.getSub "a", place := none, institution := none,
                      year := none, additional := none }
             else get_reproduction_info ⟨fs⟩
           let r2 :=
             if f.hasSub "b" then
               match r1 with
               | some ri => some { ri with place := f.getSub "b" }
               | none => some { type := none, place := f.getSub "b",
                                institution := none, year := none, additional := none }
             else r1
           let r3 :=
             if f.hasSub "c" then
               match r2 with
               | some ri => some { ri with institution := f.getSub "c" }
               | none => some { type := none, place := none,
                                institution := f.getSub "c", year := none,
                                additional := none }
             else r2
           let r4 :=
             if f.hasSub "d" then
               match r3 with
               | some ri => some { ri with year := f.getSub "d" }
               | none => some { type := none, place := none, institution := none,
                                year := f.getSub "d", additional := none }
             else r3
           if f.hasSub "n" then
             match r4 with
             | some ri => some { ri with additional := f.getSub "n" }
             | none => some { type := none, place := none, institution := none,
                              year := none, additional := f.getSub "n" }
           else r4) := by
      unfold get_reproduction_info
      rw [hfields, List.foldl_append]
      rfl
    rw [hstep]
    cases ha2 : f.hasSub "a" with
    | true =>
      cases hb : f.hasSub "b" <;> cases hc3 : f.hasSub "c" <;>
        cases hd : f.hasSub "d" <;> cases hn : f.hasSub "n" <;>
          simp [ha2, hb, hc3, hd, hn]
    | false =>
      cases hprev : get_reproduction_info (⟨fs⟩ : Record) with
      | none =>
        cases hb : f.hasSub "b" <;> cases hc3 : f.hasSub "c" <;>
          cases hd : f.hasSub "d" <;> cases hn : f.hasSub "n" <;>
            simp [ha2, hb, hc3, hd, hn, hprev]
      | some ri =>
        cases hb : f.hasSub "b" <;> cases hc3 : f.hasSub "c" <;>
          cases hd : f.hasSub "d" <;> cases hn : f.hasSub "n" <;>
            simp [ha2, hb, hc3, hd, hn, hprev]

/-- Witness for composite_merge: a later tag-300 occurrence carrying only the
primary subfield a replaces the mapping, a later tag-751 occurrence with only
subfield 0 preserves the earlier place key, a tag-510 occurrence with both
subfields sets both keys, and a later tag-533 occurrence with only subfield d
preserves the earlier place key. -/
theorem composite_merge_witness :
    get_physical_description ⟨[⟨"300", [("c", "cm")]⟩] ++ [⟨"300", [("a", "10 p.")]⟩]⟩
      = some { amount := some "10 p.", format := none }
  ∧ get_creation_place ⟨[⟨"751", [("a", "Basel")]⟩] ++ [⟨"751", [("0", "(DE)123")]⟩]⟩
      = some { place := some "Basel", gnd := some "(DE)123" }
  ∧ get_bibliographical_info ⟨([] : List MarcField) ++ [⟨"510", [("a", "R"), ("i", "T")]⟩]⟩
      = some { reference := some "R", type := some "T" }
  ∧ get_reproduction_info ⟨[⟨"533", [("b", "P")]⟩] ++ [⟨"533", [("d", "1700")]⟩]⟩
      = some { type := none, place := some "P", institution := none,
               year := some "1700", additional := none } := by
  refine ⟨?_, ?_, ?_, ?_⟩
  · have h := ((composite_merge [⟨"300", [("c", "cm")]⟩] ⟨"300", [("a", "10 p.")]⟩).1
        rfl).2.1 (by decide) (by decide)
    exact h.trans (by decide)
  · have h := ((composite_merge [⟨"751", [("a", "Basel")]⟩]
        ⟨"751", [("0", "(DE)123")]⟩).2.2.1 rfl).2.2.1 (by decide) (by decide)
    exact h.trans (by decide)
  · have h := ((composite_merge ([] : List MarcField)
        ⟨"510", [("a", "R"), ("i", "T")]⟩).2.2.2.1 rfl).1 (by decide) (by decide)
    exact h.trans (by decide)
  · have h := (composite_merge [⟨"533", [("b", "P")]⟩]
        ⟨"533", [("d", "1700")]⟩).2.2.2.2.1 rfl
    exact h.trans (by decide)

/-- C4: when the cache file for the identifier exists, fetch returns exactly
that file's contents without calling the remote client, and a second fetch
returns the same bytes, for any remote client behaviour including an
unreachable one. -/
theorem fetch_cache_hit (remote remote2 : String → Except String (List Nat))
    (fs : FileSystem) (sys_id : String)
    (h : fs.isFile (file_path sys_id) = true) :
    ∃ fs2 fs3,
      get_marc21 none remote fs sys_id
        = Except.ok ⟨fs.read (file_path sys_id), fs2, false⟩
      ∧ fs2.read (file_path sys_id) = fs.read (file_path sys_id)
      ∧ get_marc21 none remote2 fs2 sys_id
        = Except.ok ⟨fs.read (file_path sys_id), fs3, false⟩ := by
  obtain ⟨fs2, h1, hfiles⟩ := get_marc21_hit remote fs sys_id h
  have h2 : fs2.isFile (file_path sys_id) = true := by
    rw [isFile_files_eq fs2 fs _ hfiles]
    exact h
  obtain ⟨fs3, h3, _hfiles3⟩ := get_marc21_hit remote2 fs2 sys_id h2
  rw [read_files_eq fs2 fs _ hfiles] at h3
  exact ⟨fs2, fs3, h1, read_files_eq fs2 fs _ hfiles, h3⟩

/-- Witness for fetch_cache_hit: a cached identifier fetched twice while the
remote client always raises. -/
theorem fetch_cache_hit_witness :
    ∃ fs2 fs3,
      get_marc21 none remoteDown fsHit "000123" = Except.ok ⟨[1, 2, 3], fs2, false⟩
      ∧ fs2.read (file_path "000123") = [1, 2, 3]
      ∧ get_marc21 none remoteDown fs2 "000123" = Except.ok ⟨[1, 2, 3], fs3, false⟩ := by
  obtain ⟨fs2, fs3, h1, h2, h3⟩ := fetch_cache_hit remoteDown remoteDown fsHit "000123"
    (by decide)
  have e : fsHit.read (file_path "000123") = [1, 2, 3] := by decide
  rw [e] at h1 h2 h3
  exact ⟨fs2, fs3, h1, h2, h3⟩

/-- C5: when the cache file for the identifier does not exist and the remote
query succeeds, fetch returns exactly the remote bytes, calls the remote
client, and leaves the cache file holding exactly those bytes. -/
theorem fetch_cache_miss (remote : String → Except String (List Nat))
    (fs : FileSystem) (sys_id : String) (b : List Nat)
    (h : fs.isFile (file_path sys_id) = false)
    (hr : remote sys_id = Except.ok b) :
    ∃ fs2, get_marc21 none remote fs sys_id = Except.ok ⟨b, fs2, true⟩
      ∧ fs2.isFile (file_path sys_id) = true
      ∧ fs2.read (file_path sys_id) = b := by
  by_cases hp : fs.pathExists cache_path
  · refine ⟨fs.write (file_path sys_id) b, ?_, isFile_write _ _ _, read_write _ _ _⟩
    unfold get_marc21 get_marc21_try
    simp [hp, h, hr]
  · refine ⟨(fs.makedirs cache_path).write (file_path sys_id) b, ?_,
      isFile_write _ _ _, read_write _ _ _⟩
    have h2 : (fs.makedirs cache_path).isFile (file_path sys_id) = false := h
    unfold get_marc21 get_marc21_try
    simp [hp, h2, hr]

/-- Witness for fetch_cache_miss: an empty cache and a remote client returning
the bytes 7, 8. -/
theorem fetch_cache_miss_witness :
    ∃ fs2, get_marc21 none remoteOk fsEmpty "000123" = Except.ok ⟨[7, 8], fs2, true⟩
      ∧ fs2.isFile (file_path "000123") = true
      ∧ fs2.read (file_path "000123") = [7, 8] :=
  fetch_cache_miss remoteOk fsEmpty "000123" [7, 8] (by decide) rfl

/-- C6: a tag-700 occurrence contributes a person to the author list exactly
when its extracted role is aut and to the recipient list exactly when it is
rcp; a record whose only tag-700 occurrence has role edt yields empty author
and recipient lists. -/
theorem role_filtering (r : Record) :
    get_author r = (r.get_fields "100").map (fun f => check_for_gnd f "0")
        ++ ((r.get_fields "700").map (fun f => check_for_gnd f "0")).filter
            (fun p => p.role == "aut")
  ∧ get_recipient r = ((r.get_fields "700").map (fun f => check_for_gnd f "0")).filter
        (fun p => p.role == "rcp")
  ∧ get_author edtRec = [] ∧ get_recipient edtRec = [] :=
  ⟨get_author_eq r, get_recipient_eq r, by decide, by decide⟩

/-- C7: the shared person helper copies subfield a verbatim as the name,
defaults date and role to the empty string, and uses the fixed non-empty
sentinel no_GND when the authority subfield is absent. -/
theorem person_helper (f : MarcField) (idx : String) :
    (check_for_gnd f idx).name = f.getSub "a"
  ∧ (check_for_gnd f idx).date = (f.getSub "d").getD ""
  ∧ (check_for_gnd f idx).role = (f.getSub "4").getD ""
  ∧ (f.getSub idx = none →
      (check_for_gnd f idx).GND = "no_GND" ∧ (check_for_gnd f idx).GND ≠ "") := by
  refine ⟨rfl, ?_, ?_, fun h => ?_⟩
  · cases hd : f.getSub "d" <;> simp [check_for_gnd, hd]
  · cases h4 : f.getSub "4" <;> simp [check_for_gnd, h4]
  · have hG : (check_for_gnd f idx).GND = "no_GND" := by simp [check_for_gnd, h]
    refine ⟨hG, ?_⟩
    rw [hG]
    decide

/-- Witness for person_helper: a field with a name subfield and no authority
subfield. -/
theorem person_helper_witness :
    (check_for_gnd noGndField "0").name = some "N"
  ∧ (check_for_gnd noGndField "0").GND = "no_GND"
  ∧ (check_for_gnd noGndField "0").GND ≠ "" := by
  have h := person_helper noGndField "0"
  have h4 := h.2.2.2 (by decide)
  exact ⟨h.1.trans (by decide), h4.1, h4.2⟩

/-- C8: when the authority subfield is present, the extracted identifier is
its value with every comma removed; authority value 12345 followed by a comma
yields identifier 12345. -/
theorem gnd_strip_commas (f : MarcField) (idx v : String)
    (h : f.getSub idx = some v) :
    (check_for_gnd f idx).GND = replaceCommas v := by
  simp [check_for_gnd, h]

/-- Witness for gnd_strip_commas: authority subfield value 12345 with a
trailing comma. -/
theorem gnd_strip_commas_witness :
    (check_for_gnd gndField "0").GND = "12345" :=
  (gnd_strip_commas gndField "0" "12345," (by decide)).trans (by decide)

/-- C9: every failure inside fetch halts with status 1 and a stderr message
containing the identifier; every decode failure halts with status 2; the two
status codes differ; a halt never comes with a returned result. -/
theorem fetch_errors_halt (io_fault : Option String)
    (remote : String → Except String (List Nat)) (fs : FileSystem)
    (sys_id : String) (decoded : Except String Record) :
    (∀ h, get_marc21 io_fault remote fs sys_id = Except.error h →
        h.exitCode = 1 ∧ ∃ pre post, h.stderrMsg = pre ++ sys_id ++ post)
  ∧ (∀ h, get_records decoded = Except.error h → h.exitCode = 2)
  ∧ (∀ h h2, get_marc21 io_fault remote fs sys_id = Except.error h →
        get_records decoded = Except.error h2 → h.exitCode ≠ h2.exitCode)
  ∧ (∀ h r, get_marc21 io_fault remote fs sys_id = Except.error h →
        get_marc21 io_fault remote fs sys_id ≠ Except.ok r)
  ∧ (∀ h rec, get_records decoded = Except.error h →
        get_records decoded ≠ Except.ok rec) := by
  have hm : ∀ h, get_marc21 io_fault remote fs sys_id = Except.error h →
      h.exitCode = 1 ∧ ∃ pre post, h.stderrMsg = pre ++ sys_id ++ post := by
    intro h hh
    unfold get_marc21 at hh
    cases htry : get_marc21_try io_fault remote fs sys_id with
    | ok r =>
      rw [htry] at hh
      exact absurd hh (by simp)
    | error e =>
      rw [htry] at hh
      simp only [Except.error.injEq] at hh
      subst hh
      exact ⟨rfl, "Getting Marc21 failed: " ++ e ++ " for sysid: ", "\n", rfl⟩
  have hrec : ∀ h, get_records decoded = Except.error h → h.exitCode = 2 := by
    intro h hh
    unfold get_records at hh
    cases decoded with
    | ok r => simp at hh
    | error e =>
      simp only [Except.error.injEq] at hh
      subst hh
      rfl
  refine ⟨hm, hrec, ?_, ?_, ?_⟩
  · intro h h2 hh hh2
    rw [(hm h hh).1, hrec h2 hh2]
    decide
  · intro h r hh heq
    rw [hh] at heq
    exact Except.noConfusion heq
  · intro h rec hh heq
    rw [hh] at heq
    exact Except.noConfusion heq

/-- Witness for fetch_errors_halt: an injected disk-full fault and a failed
decode. -/
theorem fetch_errors_halt_witness :
    (haltDisk.exitCode = 1 ∧ ∃ pre post, haltDisk.stderrMsg = pre ++ "000123" ++ post)
  ∧ haltDecode.exitCode = 2 := by
  have h := fetch_errors_halt (some "disk full") remoteDown fsEmpty "000123"
      (Except.error "bad record")
  exact ⟨h.1 haltDisk rfl, h.2.1 haltDecode rfl⟩

/-- C10: in the author list, persons from tag-100 occurrences come first in
occurrence order, and the remaining persons form an order-preserving selection
of the tag-700 occurrences, each with role aut. -/
theorem author_order (r : Record) :
    (get_author r).take ((r.get_fields "100").map (fun f => check_for_gnd f "0")).length
      = (r.get_fields "100").map (fun f => check_for_gnd f "0")
  ∧ List.Sublist
      ((get_author r).drop ((r.get_fields "100").map (fun f => check_for_gnd f "0")).length)
      ((r.get_fields "700").map (fun f => check_for_gnd f "0"))
  ∧ ∀ p ∈ (get_author r).drop
        ((r.get_fields "100").map (fun f => check_for_gnd f "0")).length,
      p.role = "aut" := by
  rw [get_author_eq, List.take_left, List.drop_left]
  refine ⟨rfl, List.filter_sublist _, ?_⟩
  intro p hp
  exact eq_of_beq (List.mem_filter.mp hp).2

/-- Witness for author_order: the single aut tag-700 person of a record with
no tag-100 field. -/
theorem author_order_witness :
    (check_for_gnd autField "0").role = "aut" :=
  (author_order autRec).2.2 (check_for_gnd autField "0") (by decide)

end AlephRequest
